import Mathlib

/-!
Shallow embedding of the ai-trading-agent sources
(`my_ai_agent_logic.py`, `agent_ui.py`) and verification of the
specification's claims about them.

Modelling conventions:
* Python strings are Lean `String`s; `str.lower`, `str.title`,
  `str.split(" ", n)`, `str.startswith` are embedded below.
* A Python `dict` used as the knowledge base is an insertion-ordered
  association list; assignment overwrites the value in place.
* Exceptions are `Except String`; code that can raise lives in
  `Except String`, code that cannot is total.
* The remote chat object (`google.generativeai` chat session) is an
  external collaborator: it is modelled by an oracle function
  `send : ChatSession → String → SendResult`; per the external-interface
  contract, a successful send appends the request/response turn pair to
  the handle's history and a raising send leaves it untouched.
* Accessing `response.text` may raise (`ValueError` for blocked content,
  or another exception); this is the `TextAccess` field of a `Reply`.
-/

namespace AITrading

/-- A part of a chat turn; `text` is `none` when the dict has no
`text` key (accessing it would raise). -/
structure Part where
  text : Option String
  deriving Repr, DecidableEq

/-- One role-tagged chat turn (`role` is "user" or "model"). -/
structure Turn where
  role : String
  parts : List Part
  deriving Repr, DecidableEq

/-- A UI message returned by `process_ai_query`:
`speaker_type` ∈ user/local/llm/system_info/system_error. -/
structure UIMessage where
  speaker_type : String
  text : String
  deriving Repr, DecidableEq

/-- The remote chat session handle: its readable turn history. -/
structure ChatSession where
  history : List Turn
  deriving Repr, DecidableEq

/-- What happens when Python evaluates `response.text`. -/
inductive TextAccess where
  | ok (s : String)
  | valueError
  | otherErr (msg : String)
  deriving Repr, DecidableEq

/-- A reply object from the remote model. -/
structure Reply where
  textAccess : TextAccess
  prompt_feedback : Option String
  deriving Repr, DecidableEq

/-- Outcome of `current_chat_obj.send_message(prompt)`:
either a reply or a raised exception. -/
inductive SendResult where
  | success (reply : Reply)
  | failure (errMsg : String)
  deriving Repr, DecidableEq

/-- Python `str.lower` (ASCII model). -/
def pyLower (s : String) : String := String.mk (s.data.map Char.toLower)

/-- Character stream underlying Python `str.title`. -/
def pyTitleGo : List Char → Bool → List Char
  | [], _ => []
  | c :: cs, prevAlpha =>
    if c.isAlpha then
      (if prevAlpha then c.toLower else c.toUpper) :: pyTitleGo cs true
    else
      c :: pyTitleGo cs false

/-- Python `str.title` (ASCII model): first alphabetic character of each
word upper-cased, the rest lower-cased. -/
def pyTitle (s : String) : String := String.mk (pyTitleGo s.data false)

/-- Character stream underlying Python `str.split(sep, maxsplit)` for a
single-character separator: split at the first `maxsplit` occurrences of
`sep`, keeping the remainder joined. -/
def pySplitGo (sep : Char) : List Char → Nat → List Char → List String
  | [], _, cur => [String.mk cur.reverse]
  | c :: cs, n, cur =>
    if c = sep then
      match n with
      | 0 => pySplitGo sep cs 0 (c :: cur)
      | m + 1 => String.mk cur.reverse :: pySplitGo sep cs m []
    else
      pySplitGo sep cs n (c :: cur)

/-- Python `s.split(sep, maxsplit)` for a one-character separator. -/
def pySplit (s : String) (sep : Char) (maxsplit : Nat) : List String :=
  pySplitGo sep s.data maxsplit []

/-- Python `s.startswith(pre)`. -/
def pyStartsWith (s pre : String) : Bool := pre.data.isPrefixOf s.data

/-- The knowledge base: a Python dict as an insertion-ordered
association list. -/
abbrev KB := List (String × String)

/-- Python `kb[k]` lookup (as `Option`): the value of the first (and,
for a dict, only) entry with key `k`, if any. -/
def kbLookup : KB → String → Option String
  | [], _ => none
  | p :: rest, k => if p.1 == k then some p.2 else kbLookup rest k

/-- Python `kb[k] = v`: overwrite in place when the key is present,
else append (dict insertion order). -/
def kbInsert (kb : KB) (k v : String) : KB :=
  if kb.any (fun p => p.1 == k) then
    kb.map (fun p => if p.1 == k then (k, v) else p)
  else
    kb ++ [(k, v)]

/-- Python `list(kb.keys())`. -/
def kbKeys (kb : KB) : List String := kb.map (fun p => p.1)

/-- `persona_initial_history[0]['parts'][0]['text']`
(`my_ai_agent_logic.py` line 105): raises when the list is empty, the
first turn has no parts, or the first part has no `text` key. -/
def personaFirstInstruction : List Turn → Except String String
  | [] => Except.error "IndexError: persona_initial_history[0]"
  | t :: _ =>
    match t.parts with
    | [] => Except.error "IndexError: parts[0]"
    | p :: _ =>
      match p.text with
      | none => Except.error "KeyError: text"
      | some s => Except.ok s

/-- The candidate lookup key computed at `my_ai_agent_logic.py`
lines 91-95: when the lower-cased query starts with "what is " or
"explain ", split the ORIGINAL query on single spaces with maxsplit 2
and, when that yields more than one part, join the parts after the
first and lower-case the result; otherwise the whole lower-cased query. -/
def term_to_explain_lower (user_query_original user_query_lower : String) : String :=
  if pyStartsWith user_query_lower "what is " || pyStartsWith user_query_lower "explain " then
    let parts := pySplit user_query_original ' ' 2
    if parts.length > 1 then
      pyLower (String.intercalate " " (parts.drop 1))
    else user_query_lower
  else user_query_lower

/-- The line `log_to_file` writes: `"speaker: message\n"` when a speaker
is given, else `"message\n"`. -/
def logLine (message : String) (speaker : Option String) : String :=
  match speaker with
  | some s => s ++ ": " ++ message ++ "\n"
  | none => message ++ "\n"

/-- `"-" * 30`, the log separator. -/
def sep30 : String := String.mk (List.replicate 30 '-')

/-- `ai_response_text` computed at `my_ai_agent_logic.py` lines 119-127:
the reply text on success; a blocked-content placeholder (plus prompt
feedback when truthy) on `ValueError`; an access-error string otherwise. -/
def ai_response_text (response : Reply) : String :=
  match response.textAccess with
  | TextAccess.ok s => s
  | TextAccess.valueError =>
    match response.prompt_feedback with
    | some fb =>
      "[LLM Response blocked or contained no valid text content]" ++
        "\nPrompt Feedback: " ++ fb
    | none => "[LLM Response blocked or contained no valid text content]"
  | TextAccess.otherErr e => "[Error accessing LLM response text: " ++ e ++ "]"

/-- The text the library stores in the appended model turn. -/
def replyStoredText (r : Reply) : String :=
  match r.textAccess with
  | TextAccess.ok s => s
  | _ => ""

/-- Result of `process_ai_query`: UI messages, the chat session after
the call, and the session-log lines appended. -/
structure ProcessOut where
  messages_for_ui : List UIMessage
  chat : ChatSession
  logLines : List String
  deriving Repr, DecidableEq

/-- The `try` block at `my_ai_agent_logic.py` lines 116-137: send the
prompt; on success append an `llm` message (the chat history gains the
request/response turn pair per the collaborator contract); on a raised
send append a `system_error` then a `system_info` message, chat state
untouched. -/
def sendAndRespond (msgs0 : List UIMessage) (log0 : List String)
    (chat : ChatSession) (send : ChatSession → String → SendResult)
    (prompt_for_ai : String) : ProcessOut :=
  match send chat prompt_for_ai with
  | SendResult.success response =>
    let t := ai_response_text response
    { messages_for_ui := msgs0 ++ [⟨"llm", t⟩]
      chat := ⟨chat.history ++
        [⟨"user", [⟨some prompt_for_ai⟩]⟩, ⟨"model", [⟨some (replyStoredText response)⟩]⟩]⟩
      logLines := log0 ++ [logLine t (some "AI Agent (LLM)"), logLine sep30 none] }
  | SendResult.failure e =>
    let error_msg := "An error occurred sending message or generating content: " ++ e
    { messages_for_ui := msgs0 ++
        [⟨"system_error", error_msg⟩,
         ⟨"system_info", "Please check your input or try again."⟩]
      chat := chat
      logLines := log0 ++ [logLine error_msg (some "System Error"), logLine sep30 none] }

/-- `process_ai_query` (`my_ai_agent_logic.py` lines 80-139). The
persona access at line 105 sits OUTSIDE the `try` block, so its failure
propagates as `Except.error` (no messages returned). -/
def process_ai_query (user_query_original user_query_lower : String)
    (current_chat_obj : ChatSession) (send : ChatSession → String → SendResult)
    (knowledge_base : KB) (persona_initial_history : List Turn) :
    Except String ProcessOut :=
  let term := term_to_explain_lower user_query_original user_query_lower
  match kbLookup knowledge_base term with
  | some predefined_definition =>
    let display_term := pyTitle term
    let local_def_message := "From my local knowledge: " ++ display_term ++
      " is defined as - \"" ++ predefined_definition ++ "\"."
    match personaFirstInstruction persona_initial_history with
    | Except.error e => Except.error e
    | Except.ok elaboration_instruction =>
      let prompt_for_ai := "The user asked about '" ++ display_term ++
        "'. My local knowledge says: '" ++ predefined_definition ++ "'. " ++
        elaboration_instruction
      Except.ok (sendAndRespond [⟨"local", local_def_message⟩]
        [logLine local_def_message (some "AI Agent (Local)")]
        current_chat_obj send prompt_for_ai)
  | none =>
    Except.ok (sendAndRespond [] [] current_chat_obj send user_query_original)

/-- A record loaded from the terms JSON file: either a dict (whose
`term` / `definition` string fields may each be missing) or any other
JSON value. -/
inductive LoadedRecord where
  | dict (term : Option String) (defn : Option String)
  | nonDict
  deriving Repr, DecidableEq

/-- One iteration of the loop at `agent_ui.py` lines 180-182: a dict
with both fields present is stored under the lower-cased term; anything
else is skipped. -/
def kbStep (kb : KB) (r : LoadedRecord) : KB :=
  match r with
  | LoadedRecord.dict (some t) (some d) => kbInsert kb (pyLower t) d
  | _ => kb

/-- Knowledge-base construction (`agent_ui.py` lines 178-183). -/
def buildKB (loaded_terms : List LoadedRecord) : KB :=
  loaded_terms.foldl kbStep []

/-- One step of the specification-side lookup: an included record (a
dict with both fields) whose lower-cased term equals `k` replaces the
accumulated definition; everything else keeps it. -/
def lastIncludedStep (k : String) (acc : Option String) (r : LoadedRecord) :
    Option String :=
  match r with
  | LoadedRecord.dict (some t) (some d) => if pyLower t == k then some d else acc
  | _ => acc

/-- Specification-side lookup: the definition of the LAST included
record (a dict with both fields) whose lower-cased term equals `k`. -/
def lastIncludedDef (recs : List LoadedRecord) (k : String) : Option String :=
  recs.foldl (lastIncludedStep k) none

/-- The body of `log_to_file`'s `try` block (`my_ai_agent_logic.py`
lines 46-50): open/append may raise, modelled by the `fsAppend` oracle;
on success nothing is printed to the console. -/
def log_to_file_body (fsAppend : String → String → Except String Unit)
    (log_filename message : String) (speaker : Option String) :
    Except String (List String) :=
  match fsAppend log_filename (logLine message speaker) with
  | Except.ok _ => Except.ok []
  | Except.error e => Except.error e

/-- `log_to_file` (`my_ai_agent_logic.py` lines 41-52): the body wrapped
in `try`/`except Exception`; a raised write is reported on the console
(the returned string list) and never re-raised. -/
def log_to_file (fsAppend : String → String → Except String Unit)
    (log_filename message : String) (speaker : Option String) :
    Except String (List String) :=
  match log_to_file_body fsAppend log_filename message speaker with
  | Except.ok console => Except.ok console
  | Except.error e_log =>
    Except.ok ["Error writing to log file '" ++ log_filename ++ "': " ++ e_log]

/-- The dispatcher branches of `agent_ui.py` lines 240-321. -/
inductive Branch where
  | quitExit
  | resetCmd
  | helpCmd
  | myTerms
  | randomTerm
  | aiQuery
  deriving Repr, DecidableEq

/-- Command dispatch (`agent_ui.py` lines 240-321): branch on the
lower-cased input. -/
def dispatchBranch (user_query : String) : Branch :=
  let user_query_lc := pyLower user_query
  if user_query_lc == "quit" || user_query_lc == "exit" then Branch.quitExit
  else if user_query_lc == "/reset" then Branch.resetCmd
  else if user_query_lc == "/help" then Branch.helpCmd
  else if user_query_lc == "/my_terms" then Branch.myTerms
  else if user_query_lc == "/random_term" then Branch.randomTerm
  else Branch.aiQuery

/-- `turn.parts[0].text`: raises on an empty parts list or a missing
`text` field. -/
def turnFirstPartText (t : Turn) : Except String String :=
  match t.parts with
  | [] => Except.error "IndexError: parts[0]"
  | p :: _ =>
    match p.text with
    | none => Except.error "KeyError: text"
    | some s => Except.ok s

/-- Outcome of a reset: the new chat session, the new displayed
transcript, and the log lines appended. -/
structure ResetOut where
  chat_session : ChatSession
  display_messages : List (String × String)
  logLines : List String
  deriving Repr, DecidableEq

/-- Common body of the two reset handlers: start a fresh chat from the
template, clear the transcript, pick the greeting (the trailing model
turn's first part text when present, else `defaultMsg`), append it, and
log marker / greeting / separator. The prior chat and transcript are
taken and discarded, as the source overwrites them. -/
def resetChatCore (_priorChat : ChatSession) (_priorDisplay : List (String × String))
    (template : List Turn) (defaultMsg marker : String) :
    Except String ResetOut :=
  let chat := ChatSession.mk template
  let resetMsgE : Except String String :=
    match chat.history.getLast? with
    | some t => if t.role == "model" then turnFirstPartText t else Except.ok defaultMsg
    | none => Except.ok defaultMsg
  match resetMsgE with
  | Except.error e => Except.error e
  | Except.ok reset_msg =>
    Except.ok { chat_session := chat
                display_messages := [("assistant", reset_msg)]
                logLines := [logLine marker none,
                             logLine reset_msg (some "AI Agent"),
                             logLine "---" none] }

/-- The typed `/reset` branch (`agent_ui.py` lines 253-263). -/
def resetTyped (priorChat : ChatSession) (priorDisplay : List (String × String))
    (template : List Turn) : Except String ResetOut :=
  resetChatCore priorChat priorDisplay template
    "Conversation reset by user." "--- User typed /reset ---"

/-- The sidebar reset button (`agent_ui.py` lines 31-49), in the
agent-initialized case. -/
def resetSidebar (priorChat : ChatSession) (priorDisplay : List (String × String))
    (template : List Turn) : Except String ResetOut :=
  resetChatCore priorChat priorDisplay template
    "Conversation has been reset!" "--- User clicked Reset Chat button from sidebar ---"

/-- Python `random.choice(l)` with the randomness supplied by an oracle
`choose`: raises `IndexError` on an empty sequence. -/
def pyRandomChoice (choose : List String → String) (l : List String) :
    Except String String :=
  match l with
  | [] => Except.error "IndexError: Cannot choose from an empty sequence"
  | _ => Except.ok (choose l)

/-- The typed `/random_term` branch (`agent_ui.py` lines 273-301):
returns (display messages appended, log lines appended, chat after). -/
def randomTermTyped (choose : List String → String) (chat : ChatSession)
    (send : ChatSession → String → SendResult) (kb : KB) (template : List Turn) :
    Except String (List (String × String) × List String × ChatSession) :=
  let log0 := [logLine "--- User typed /random_term ---" none]
  if kb = [] then
    Except.ok ([("assistant", "My local knowledge base is empty.")],
      log0 ++ [logLine "My local knowledge base is empty." (some "AI Agent"),
               logLine "---" none],
      chat)
  else
    match pyRandomChoice choose (kbKeys kb) with
    | Except.error e => Except.error e
    | Except.ok random_term_key =>
      let selection_msg := "Okay, let's talk about: '" ++ pyTitle random_term_key ++ "'"
      match process_ai_query (pyTitle random_term_key) random_term_key
              chat send kb template with
      | Except.error e => Except.error e
      | Except.ok po =>
        Except.ok (("assistant", selection_msg)
            :: po.messages_for_ui.map (fun m => ("assistant", m.text)),
          log0 ++ [logLine selection_msg (some "AI Agent")] ++ po.logLines ++
            [logLine "---" none],
          po.chat)

/-- The sidebar "Explain Random Term" button (`agent_ui.py` lines
78-116), embedded exactly as indented in the source: the `else:` at
line 108 belongs to the `for` loop (a `for`/`else`, whose body runs
whenever the loop completes without `break` — i.e. always), and the
`else:` at line 115 belongs to `if st.session_state.knowledge_base:`,
so an empty knowledge base reaches `st.warning("Agent not initialized
yet.")`. Returns (display messages appended, log lines appended,
warnings shown, chat after). -/
def randomTermSidebar (agent_initialized : Bool) (choose : List String → String)
    (chat : ChatSession) (send : ChatSession → String → SendResult)
    (kb : KB) (template : List Turn) :
    Except String (List (String × String) × List String × List String × ChatSession) :=
  if agent_initialized then
    let log0 := [logLine "--- User clicked Explain Random Term button ---" none]
    if kb = [] then
      Except.ok ([], log0, ["Agent not initialized yet."], chat)
    else
      match pyRandomChoice choose (kbKeys kb) with
      | Except.error e => Except.error e
      | Except.ok random_term_key =>
        let selection_msg := "Okay, let's talk about: '" ++ pyTitle random_term_key ++ "'"
        match process_ai_query (pyTitle random_term_key) random_term_key
                chat send kb template with
        | Except.error e => Except.error e
        | Except.ok po =>
          let no_terms_msg := "My local knowledge base is empty, so I can't pick a random term."
          Except.ok (("assistant", selection_msg)
              :: po.messages_for_ui.map (fun m => ("assistant", m.text))
              ++ [("assistant", no_terms_msg)],
            log0 ++ [logLine selection_msg (some "AI Agent")] ++ po.logLines ++
              [logLine no_terms_msg (some "AI Agent"), logLine "---" none],
            [], po.chat)
  else
    Except.ok ([], [], [], chat)

/-- Number of messages with the given speaker type. -/
def countSp (msgs : List UIMessage) (sp : String) : Nat :=
  (msgs.filter (fun m => m.speaker_type == sp)).length

/-! ### Knowledge-base construction lemmas -/

theorem kbLookup_map_update (kb : KB) (k' v k : String) :
    kbLookup (kb.map (fun p => if p.1 == k' then (k', v) else p)) k =
      if k = k' then (kbLookup kb k').map (fun _ => v) else kbLookup kb k := by
  induction kb with
  | nil => by_cases h : k = k' <;> simp [kbLookup, h]
  | cons p rest ih =>
    by_cases hp : p.1 = k'
    · by_cases h : k = k'
      · subst h; simp [kbLookup, hp, ih]
      · simp [kbLookup, hp, h, Ne.symm h]
        simpa [h] using ih
    · by_cases h : k = k'
      · subst h
        simp [kbLookup, hp]
        simpa using ih
      · simp [kbLookup, hp, h]
        simp [h] at ih
        rw [ih]

theorem kbLookup_isSome_of_any (kb : KB) (k : String) :
    kb.any (fun p => p.1 == k) = true → (kbLookup kb k).isSome := by
  induction kb with
  | nil => intro h; simp at h
  | cons p rest ih =>
    intro h
    by_cases hp : p.1 = k
    · simp [kbLookup, hp]
    · rw [List.any_cons] at h
      have h2 : rest.any (fun p => p.1 == k) = true := by
        rcases Bool.or_eq_true_iff.mp h with h1 | h1
        · exact absurd (by simpa using h1) hp
        · exact h1
      simp [kbLookup, hp, ih h2]

theorem kbLookup_append_single (kb : KB) (k' v k : String) :
    kb.any (fun p => p.1 == k') = false →
    kbLookup (kb ++ [(k', v)]) k = if k = k' then some v else kbLookup kb k := by
  induction kb with
  | nil =>
    intro _
    by_cases h : k = k'
    · subst h; simp [kbLookup]
    · simp [kbLookup, h, Ne.symm h]
  | cons p rest ih =>
    intro hany
    rw [List.any_cons, Bool.or_eq_false_iff] at hany
    obtain ⟨hp, hrest⟩ := hany
    have hp' : ¬ p.1 = k' := by simpa using hp
    by_cases hpk : p.1 = k
    · have hkk' : ¬ k = k' := fun hh => hp' (hpk.trans hh)
      simp [kbLookup, hpk, hkk']
    · simp [kbLookup, hpk, ih hrest]

theorem kbLookup_insert (kb : KB) (k' v k : String) :
    kbLookup (kbInsert kb k' v) k = if k = k' then some v else kbLookup kb k := by
  by_cases hany : kb.any (fun p => p.1 == k') = true
  · simp only [kbInsert, if_pos hany]
    rw [kbLookup_map_update]
    by_cases h : k = k'
    · subst h
      obtain ⟨w, hw⟩ := Option.isSome_iff_exists.mp (kbLookup_isSome_of_any kb k hany)
      simp [hw]
    · simp [h]
  · simp only [kbInsert, if_neg hany]
    exact kbLookup_append_single kb k' v k (Bool.not_eq_true _ ▸ Bool.of_not_eq_true hany)

theorem kbLookup_foldl_kbStep (recs : List LoadedRecord) :
    ∀ (kb : KB) (k : String),
      kbLookup (recs.foldl kbStep kb) k =
        recs.foldl (lastIncludedStep k) (kbLookup kb k) := by
  induction recs with
  | nil => intro kb k; rfl
  | cons r rs ih =>
    intro kb k
    rw [List.foldl_cons, List.foldl_cons, ih]
    congr 1
    cases r with
    | nonDict => rfl
    | dict t d =>
      cases t with
      | none => rfl
      | some t' =>
        cases d with
        | none => rfl
        | some d' =>
          show kbLookup (kbInsert kb (pyLower t') d') k =
            if pyLower t' == k then some d' else kbLookup kb k
          rw [kbLookup_insert]
          by_cases h : k = pyLower t'
          · simp [h]
          · simp [h, Ne.symm h]

theorem kbLookup_buildKB (recs : List LoadedRecord) (k : String) :
    kbLookup (buildKB recs) k = lastIncludedDef recs k := by
  unfold buildKB lastIncludedDef
  simpa using kbLookup_foldl_kbStep recs [] k

theorem lastIncluded_foldl_isSome (k : String) (recs : List LoadedRecord) :
    ∀ v : String, (recs.foldl (lastIncludedStep k) (some v)).isSome := by
  induction recs with
  | nil => intro v; rfl
  | cons r rs ih =>
    intro v
    rw [List.foldl_cons]
    cases r with
    | nonDict => exact ih v
    | dict t d =>
      cases t with
      | none => exact ih v
      | some t' =>
        cases d with
        | none => exact ih v
        | some d' =>
          by_cases h : (pyLower t' == k) = true
          · simp only [lastIncludedStep, if_pos h]; exact ih d'
          · simp only [lastIncludedStep, if_neg h]; exact ih v

theorem lastIncludedDef_isSome_of_mem (t d : String) :
    ∀ recs : List LoadedRecord, LoadedRecord.dict (some t) (some d) ∈ recs →
      (lastIncludedDef recs (pyLower t)).isSome := by
  intro recs
  induction recs with
  | nil => intro h; cases h
  | cons r rs ih =>
    intro h
    unfold lastIncludedDef
    rw [List.foldl_cons]
    rcases List.mem_cons.mp h with h | h
    · subst h
      simp only [lastIncludedStep, if_pos (beq_self_eq_true _)]
      exact lastIncluded_foldl_isSome _ rs d
    · cases hr : lastIncludedStep (pyLower t) none r with
      | none => exact ih h
      | some w => exact lastIncluded_foldl_isSome _ rs w

/-! ### Concrete fixtures -/

/-- A persona template of the default shape: one user instruction turn
and a trailing model greeting. -/
def sampleTemplate : List Turn :=
  [⟨"user", [⟨some "Explain it simply for a beginner."⟩]⟩,
   ⟨"model", [⟨some "Hi, ask me about trading terms."⟩]⟩]

def sampleChat : ChatSession := ⟨sampleTemplate⟩

def sampleKB : KB := [("pip", "Price Interest Point")]

/-- A send oracle that always succeeds with plain text. -/
def sendOK : ChatSession → String → SendResult :=
  fun _ _ => SendResult.success ⟨TextAccess.ok "model answer", none⟩

/-- A send oracle that always raises. -/
def sendBoom : ChatSession → String → SendResult :=
  fun _ _ => SendResult.failure "boom"

/-- A send oracle whose reply text access raises `ValueError` with
prompt feedback available. -/
def sendBlocked : ChatSession → String → SendResult :=
  fun _ _ => SendResult.success ⟨TextAccess.valueError, some "SAFETY"⟩

/-- A filesystem oracle whose append always raises. -/
def fsFail : String → String → Except String Unit :=
  fun _ _ => Except.error "disk full"

/-- A loaded record list with an overwriting duplicate, a non-dict
record, and a record missing the term field. -/
def sampleRecords : List LoadedRecord :=
  [LoadedRecord.dict (some "PIP") (some "first"), LoadedRecord.nonDict,
   LoadedRecord.dict none (some "skipped"),
   LoadedRecord.dict (some "Pip") (some "second"),
   LoadedRecord.dict (some "Lot") (some "a standard trade size")]

/-! ### Claim theorems -/

/-- C1: the claim that "What is X" resolves like the bare query "X" is
FALSE on the code. The candidate key of "What is Pip" is "is pip"
(`split(" ", 2)` followed by joining `parts[1:]` keeps the word "is"),
so no local message is emitted, while the bare query "Pip" (and the
"Explain Pip" form) hits the knowledge base and emits one. -/
theorem c1_what_is_vs_direct_query_eval :
    term_to_explain_lower "What is Pip" "what is pip" = "is pip" ∧
    term_to_explain_lower "Pip" "pip" = "pip" ∧
    term_to_explain_lower "Explain Pip" "explain pip" = "pip" ∧
    (process_ai_query "What is Pip" "what is pip" sampleChat sendOK
        sampleKB sampleTemplate).map
      (fun po => countSp po.messages_for_ui "local") = Except.ok 0 ∧
    (process_ai_query "What is Pip" "what is pip" sampleChat sendOK
        sampleKB sampleTemplate).map
      (fun po => countSp po.messages_for_ui "llm") = Except.ok 1 ∧
    (process_ai_query "Pip" "pip" sampleChat sendOK sampleKB sampleTemplate).map
      (fun po => countSp po.messages_for_ui "local") = Except.ok 1 := by
  refine ⟨?_, ?_, ?_, ?_, ?_, ?_⟩ <;> rfl

/-- C3: knowledge-base construction keeps exactly the dict records with
both fields, keyed by lower-cased term, later duplicates overwriting
earlier ones, all other records skipped: every lookup agrees with the
last included record with that key, and every included record's
lower-cased term is present. -/
theorem c3_knowledge_store_construction (recs : List LoadedRecord) :
    (∀ k, kbLookup (buildKB recs) k = lastIncludedDef recs k) ∧
    (∀ t d, LoadedRecord.dict (some t) (some d) ∈ recs →
      (kbLookup (buildKB recs) (pyLower t)).isSome) := by
  constructor
  · exact kbLookup_buildKB recs
  · intro t d hmem
    rw [kbLookup_buildKB]
    exact lastIncludedDef_isSome_of_mem t d recs hmem

/-- Witness for C3 at a concrete record list containing a duplicate, a
non-dict record, and a partial record. -/
theorem c3_knowledge_store_construction_witness :
    kbLookup (buildKB sampleRecords) "pip" = lastIncludedDef sampleRecords "pip" ∧
    (kbLookup (buildKB sampleRecords) (pyLower "PIP")).isSome :=
  ⟨(c3_knowledge_store_construction sampleRecords).1 "pip",
   (c3_knowledge_store_construction sampleRecords).2 "PIP" "first" (by decide)⟩

/-- C4: both reset paths discard the prior chat and transcript, seed a
chat whose history equals the template by content, and display exactly
the template's trailing model-turn text as the new greeting. -/
theorem c4_reset_restores_template
    (priorChat : ChatSession) (priorDisplay : List (String × String))
    (template : List Turn) (t : Turn) (s : String)
    (hlast : template.getLast? = some t)
    (hrole : t.role = "model")
    (htext : turnFirstPartText t = Except.ok s) :
    resetTyped priorChat priorDisplay template =
      Except.ok ⟨⟨template⟩, [("assistant", s)],
        [logLine "--- User typed /reset ---" none,
         logLine s (some "AI Agent"), logLine "---" none]⟩ ∧
    resetSidebar priorChat priorDisplay template =
      Except.ok ⟨⟨template⟩, [("assistant", s)],
        [logLine "--- User clicked Reset Chat button from sidebar ---" none,
         logLine s (some "AI Agent"), logLine "---" none]⟩ := by
  constructor <;>
    simp [resetTyped, resetSidebar, resetChatCore, hlast, hrole, htext]

/-- Witness for C4 at the sample template, starting from a non-empty
prior session. -/
theorem c4_reset_restores_template_witness :
    resetTyped ⟨[⟨"user", [⟨some "old turn"⟩]⟩]⟩ [("user", "old turn")] sampleTemplate =
      Except.ok ⟨⟨sampleTemplate⟩,
        [("assistant", "Hi, ask me about trading terms.")],
        [logLine "--- User typed /reset ---" none,
         logLine "Hi, ask me about trading terms." (some "AI Agent"),
         logLine "---" none]⟩ :=
  (c4_reset_restores_template ⟨[⟨"user", [⟨some "old turn"⟩]⟩]⟩ [("user", "old turn")]
    sampleTemplate ⟨"model", [⟨some "Hi, ask me about trading terms."⟩]⟩
    "Hi, ask me about trading terms." rfl rfl rfl).1

/-- C5: with an empty knowledge base, neither `/random_term` path ever
consults the random source (the result is the same for every `choose`
oracle and is a normal return, not the `IndexError` an attempted choice
would raise) — but only the typed command shows the fixed empty-KB
message; the sidebar button instead shows the warning "Agent not
initialized yet." and appends nothing to the transcript, because the
source's `else:` at line 115 is attached to the knowledge-base check. -/
theorem c5_random_term_empty_kb (choose : List String → String)
    (chat : ChatSession) (send : ChatSession → String → SendResult)
    (template : List Turn) :
    randomTermSidebar true choose chat send [] template =
      Except.ok ([], [logLine "--- User clicked Explain Random Term button ---" none],
        ["Agent not initialized yet."], chat) ∧
    randomTermTyped choose chat send [] template =
      Except.ok ([("assistant", "My local knowledge base is empty.")],
        [logLine "--- User typed /random_term ---" none,
         logLine "My local knowledge base is empty." (some "AI Agent"),
         logLine "---" none], chat) :=
  ⟨rfl, rfl⟩

/-- C7: dispatch depends only on the lower-cased input, and each
command token dispatches to its branch in any casing. -/
theorem c7_dispatch_case_insensitive :
    (∀ a b : String, pyLower a = pyLower b → dispatchBranch a = dispatchBranch b) ∧
    dispatchBranch "/HELP" = Branch.helpCmd ∧
    dispatchBranch "/Help" = Branch.helpCmd ∧
    dispatchBranch "/help" = Branch.helpCmd ∧
    dispatchBranch "QUIT" = Branch.quitExit ∧
    dispatchBranch "Exit" = Branch.quitExit ∧
    dispatchBranch "/Reset" = Branch.resetCmd ∧
    dispatchBranch "/MY_TERMS" = Branch.myTerms ∧
    dispatchBranch "/Random_Term" = Branch.randomTerm ∧
    dispatchBranch "hello" = Branch.aiQuery := by
  constructor
  · intro a b h
    unfold dispatchBranch
    rw [h]
  · refine ⟨?_, ?_, ?_, ?_, ?_, ?_, ?_, ?_, ?_⟩ <;> rfl

/-- Witness for C7: two casings of the help command dispatch alike. -/
theorem c7_dispatch_case_insensitive_witness :
    dispatchBranch "/HELP" = dispatchBranch "/help" :=
  c7_dispatch_case_insensitive.1 "/HELP" "/help" rfl

/-- C8: `log_to_file` always returns normally — a raised open/write is
caught and reported on the diagnostic console instead. -/
theorem c8_log_to_file_never_raises
    (fsAppend : String → String → Except String Unit)
    (log_filename message : String) (speaker : Option String) :
    (∃ console, log_to_file fsAppend log_filename message speaker = Except.ok console) ∧
    (∀ e, fsAppend log_filename (logLine message speaker) = Except.error e →
      log_to_file fsAppend log_filename message speaker =
        Except.ok ["Error writing to log file '" ++ log_filename ++ "': " ++ e]) := by
  cases h : fsAppend log_filename (logLine message speaker) with
  | ok u =>
    constructor
    · exact ⟨[], by simp [log_to_file, log_to_file_body, h]⟩
    · intro e he
      simp at he
  | error e0 =>
    constructor
    · exact ⟨["Error writing to log file '" ++ log_filename ++ "': " ++ e0],
        by simp [log_to_file, log_to_file_body, h]⟩
    · intro e he
      injection he with he'
      subst he'
      simp [log_to_file, log_to_file_body, h]

/-- Witness for C8: a failing filesystem still yields a normal return
carrying the console diagnostic. -/
theorem c8_log_to_file_never_raises_witness :
    log_to_file fsFail "log.txt" "hello" (some "User") =
      Except.ok ["Error writing to log file 'log.txt': disk full"] :=
  (c8_log_to_file_never_raises fsFail "log.txt" "hello" (some "User")).2 "disk full" rfl

/-- C9: when the candidate key hits the knowledge base but the persona
template is malformed (empty, first turn without parts, or first part
without text), `process_ai_query` raises the persona-access exception
and returns no messages at all — not the error-path
system_error/system_info pair — because line 105 sits outside the
guarded block. -/
theorem c9_persona_access_unguarded
    (uqo uql : String) (chat : ChatSession) (send : ChatSession → String → SendResult)
    (kb : KB) (tpl : List Turn) (d e : String)
    (hkb : kbLookup kb (term_to_explain_lower uqo uql) = some d)
    (hpers : personaFirstInstruction tpl = Except.error e) :
    process_ai_query uqo uql chat send kb tpl = Except.error e := by
  simp [process_ai_query, hkb, hpers]

/-- Witness for C9: a knowledge-base hit with an empty persona template
raises instead of returning messages. -/
theorem c9_persona_access_unguarded_witness :
    process_ai_query "Pip" "pip" sampleChat sendOK sampleKB [] =
      Except.error "IndexError: persona_initial_history[0]" :=
  c9_persona_access_unguarded "Pip" "pip" sampleChat sendOK sampleKB []
    "Price Interest Point" "IndexError: persona_initial_history[0]" (by rfl) rfl

/-- C2: when the remote send raises, the returned sequence ends with
exactly one system_error message (carrying the failure detail)
immediately followed by exactly one system_info retry advice, emits no
llm message, and leaves the chat history untouched. -/
theorem c2_send_failure_error_path
    (uqo uql : String) (chat : ChatSession) (send : ChatSession → String → SendResult)
    (kb : KB) (tpl : List Turn) (e : String)
    (hfail : ∀ c p, send c p = SendResult.failure e)
    (po : ProcessOut)
    (hok : process_ai_query uqo uql chat send kb tpl = Except.ok po) :
    countSp po.messages_for_ui "system_error" = 1 ∧
    countSp po.messages_for_ui "system_info" = 1 ∧
    countSp po.messages_for_ui "llm" = 0 ∧
    (∃ pre, po.messages_for_ui = pre ++
      [⟨"system_error", "An error occurred sending message or generating content: " ++ e⟩,
       ⟨"system_info", "Please check your input or try again."⟩]) ∧
    po.chat = chat := by
  simp only [process_ai_query] at hok
  split at hok
  · split at hok
    · exact absurd hok (by simp)
    · simp only [sendAndRespond, hfail, Except.ok.injEq] at hok
      subst hok
      refine ⟨by rfl, by rfl, by rfl, ?_, by rfl⟩
      exact ⟨[⟨"local", _⟩], rfl⟩
  · simp only [sendAndRespond, hfail, Except.ok.injEq] at hok
    subst hok
    refine ⟨by rfl, by rfl, by rfl, ?_, by rfl⟩
    exact ⟨[], rfl⟩

/-- Witness for C2 with an always-raising send oracle. -/
theorem c2_send_failure_error_path_witness :
    ∃ po, process_ai_query "zzz" "zzz" sampleChat sendBoom sampleKB sampleTemplate =
        Except.ok po ∧
      countSp po.messages_for_ui "system_error" = 1 ∧
      countSp po.messages_for_ui "system_info" = 1 ∧
      countSp po.messages_for_ui "llm" = 0 ∧
      po.chat = sampleChat := by
  refine ⟨_, by rfl, ?_⟩
  have h := c2_send_failure_error_path "zzz" "zzz" sampleChat sendBoom sampleKB
    sampleTemplate "boom" (by intro c p; rfl) _ (by rfl)
  exact ⟨h.1, h.2.1, h.2.2.1, h.2.2.2.2⟩

/-- C6: when the send succeeds but reading the reply text raises, the
call returns one llm-tagged placeholder (the last message) and no
system_error and no system_info message; in the blocked-content
(`ValueError`) case the placeholder is the fixed blocked/empty notice
carrying the prompt feedback when available. -/
theorem c6_blocked_reply_degraded_success
    (uqo uql : String) (chat : ChatSession) (send : ChatSession → String → SendResult)
    (kb : KB) (tpl : List Turn) (reply : Reply)
    (hsend : ∀ c p, send c p = SendResult.success reply)
    (hblock : ∀ s, reply.textAccess ≠ TextAccess.ok s)
    (po : ProcessOut)
    (hok : process_ai_query uqo uql chat send kb tpl = Except.ok po) :
    countSp po.messages_for_ui "llm" = 1 ∧
    countSp po.messages_for_ui "system_error" = 0 ∧
    countSp po.messages_for_ui "system_info" = 0 ∧
    po.messages_for_ui.getLast? = some ⟨"llm", ai_response_text reply⟩ ∧
    (∀ fb, reply.textAccess = TextAccess.valueError → reply.prompt_feedback = some fb →
      po.messages_for_ui.getLast? = some ⟨"llm",
        "[LLM Response blocked or contained no valid text content]" ++
          "\nPrompt Feedback: " ++ fb⟩) ∧
    (reply.textAccess = TextAccess.valueError → reply.prompt_feedback = none →
      po.messages_for_ui.getLast? = some ⟨"llm",
        "[LLM Response blocked or contained no valid text content]"⟩) := by
  have hfb1 : ∀ fb, reply.textAccess = TextAccess.valueError →
      reply.prompt_feedback = some fb →
      ai_response_text reply =
        "[LLM Response blocked or contained no valid text content]" ++
          "\nPrompt Feedback: " ++ fb := by
    intro fb h1 h2
    simp [ai_response_text, h1, h2]
  have hfb2 : reply.textAccess = TextAccess.valueError →
      reply.prompt_feedback = none →
      ai_response_text reply =
        "[LLM Response blocked or contained no valid text content]" := by
    intro h1 h2
    simp [ai_response_text, h1, h2]
  simp only [process_ai_query] at hok
  split at hok
  · split at hok
    · exact absurd hok (by simp)
    · simp only [sendAndRespond, hsend, Except.ok.injEq] at hok
      subst hok
      refine ⟨by rfl, by rfl, by rfl, by rfl, ?_, ?_⟩
      · intro fb h1 h2
        rw [← hfb1 fb h1 h2]
        rfl
      · intro h1 h2
        rw [← hfb2 h1 h2]
        rfl
  · simp only [sendAndRespond, hsend, Except.ok.injEq] at hok
    subst hok
    refine ⟨by rfl, by rfl, by rfl, by rfl, ?_, ?_⟩
    · intro fb h1 h2
      rw [← hfb1 fb h1 h2]
      rfl
    · intro h1 h2
      rw [← hfb2 h1 h2]
      rfl

/-- Witness for C6 with a blocked reply carrying prompt feedback. -/
theorem c6_blocked_reply_degraded_success_witness :
    ∃ po, process_ai_query "zzz" "zzz" sampleChat sendBlocked sampleKB sampleTemplate =
        Except.ok po ∧
      countSp po.messages_for_ui "llm" = 1 ∧
      countSp po.messages_for_ui "system_error" = 0 ∧
      countSp po.messages_for_ui "system_info" = 0 := by
  refine ⟨_, by rfl, ?_⟩
  have h := c6_blocked_reply_degraded_success "zzz" "zzz" sampleChat sendBlocked
    sampleKB sampleTemplate ⟨TextAccess.valueError, some "SAFETY"⟩
    (by intro c p; rfl) (by intro s h; exact TextAccess.noConfusion h) _ (by rfl)
  exact ⟨h.1, h.2.1, h.2.2.1⟩

/-- The message-sequence invariant of claim C10, as a predicate on the
returned list. -/
def WellFormedMessages (msgs : List UIMessage) : Prop :=
  msgs ≠ [] ∧
  (∀ m ∈ msgs,
    m.speaker_type = "local" ∨ m.speaker_type = "llm" ∨
    m.speaker_type = "system_error" ∨ m.speaker_type = "system_info") ∧
  countSp msgs "local" ≤ 1 ∧
  ((∃ m ∈ msgs, m.speaker_type = "local") →
    ∃ t, msgs.head? = some ⟨"local", t⟩) ∧
  countSp msgs "llm" + countSp msgs "system_error" ≤ 1

theorem wf_local_llm (a b : String) :
    WellFormedMessages [⟨"local", a⟩, ⟨"llm", b⟩] := by
  refine ⟨by simp, ?_, le_of_eq (by rfl), fun _ => ⟨a, rfl⟩, le_of_eq (by rfl)⟩
  intro m hm
  rcases List.mem_cons.mp hm with rfl | hm
  · exact Or.inl rfl
  rcases List.mem_cons.mp hm with rfl | hm
  · exact Or.inr (Or.inl rfl)
  cases hm

theorem wf_local_err (a c d : String) :
    WellFormedMessages [⟨"local", a⟩, ⟨"system_error", c⟩, ⟨"system_info", d⟩] := by
  refine ⟨by simp, ?_, le_of_eq (by rfl), fun _ => ⟨a, rfl⟩, le_of_eq (by rfl)⟩
  intro m hm
  rcases List.mem_cons.mp hm with rfl | hm
  · exact Or.inl rfl
  rcases List.mem_cons.mp hm with rfl | hm
  · exact Or.inr (Or.inr (Or.inl rfl))
  rcases List.mem_cons.mp hm with rfl | hm
  · exact Or.inr (Or.inr (Or.inr rfl))
  cases hm

theorem wf_llm (b : String) : WellFormedMessages [⟨"llm", b⟩] := by
  refine ⟨by simp, ?_, Nat.zero_le 1, ?_, le_of_eq (by rfl)⟩
  · intro m hm
    rcases List.mem_cons.mp hm with rfl | hm
    · exact Or.inr (Or.inl rfl)
    cases hm
  · rintro ⟨m, hm, hsp⟩
    rcases List.mem_cons.mp hm with rfl | hm
    · exact absurd hsp (by decide : ¬("llm" : String) = "local")
    cases hm

theorem wf_err (c d : String) :
    WellFormedMessages [⟨"system_error", c⟩, ⟨"system_info", d⟩] := by
  refine ⟨by simp, ?_, Nat.zero_le 1, ?_, le_of_eq (by rfl)⟩
  · intro m hm
    rcases List.mem_cons.mp hm with rfl | hm
    · exact Or.inr (Or.inr (Or.inl rfl))
    rcases List.mem_cons.mp hm with rfl | hm
    · exact Or.inr (Or.inr (Or.inr rfl))
    cases hm
  · rintro ⟨m, hm, hsp⟩
    rcases List.mem_cons.mp hm with rfl | hm
    · exact absurd hsp (by decide : ¬("system_error" : String) = "local")
    rcases List.mem_cons.mp hm with rfl | hm
    · exact absurd hsp (by decide : ¬("system_info" : String) = "local")
    cases hm

/-- C10: every normal return of `process_ai_query` is a non-empty list
whose speaker types all lie in local/llm/system_error/system_info, with
at most one local message which — when present — is the first element,
and at most one of llm/system_error per call. -/
theorem c10_process_output_invariants
    (uqo uql : String) (chat : ChatSession) (send : ChatSession → String → SendResult)
    (kb : KB) (tpl : List Turn) (po : ProcessOut)
    (hok : process_ai_query uqo uql chat send kb tpl = Except.ok po) :
    WellFormedMessages po.messages_for_ui := by
  simp only [process_ai_query] at hok
  split at hok
  · split at hok
    · exact absurd hok (by simp)
    · simp only [sendAndRespond] at hok
      split at hok <;>
        (simp only [Except.ok.injEq] at hok; subst hok)
      · exact wf_local_llm _ _
      · exact wf_local_err _ _ _
  · simp only [sendAndRespond] at hok
    split at hok <;>
      (simp only [Except.ok.injEq] at hok; subst hok)
    · exact wf_llm _
    · exact wf_err _ _

/-- Witness for C10 on a knowledge-base hit with a successful send. -/
theorem c10_process_output_invariants_witness :
    ∃ po, process_ai_query "Pip" "pip" sampleChat sendOK sampleKB sampleTemplate =
        Except.ok po ∧ WellFormedMessages po.messages_for_ui := by
  refine ⟨_, by rfl, ?_⟩
  exact c10_process_output_invariants "Pip" "pip" sampleChat sendOK sampleKB
    sampleTemplate _ (by rfl)

end AITrading
